import Mathlib

/-!
Shallow embedding of the IP/DNS bounded concurrent aggregator of
`internal/services/ip_service.go` and its HTTP boundary handler
(`BatchAnalyzeIPs` in the routes package), together with theorems about the
spec's claims.

Modelling conventions:
- Go `(T, error)` return values become `Except String T`; `nil`-able struct
  pointers stored in optional fields become `Option T`.
- Wall-clock fields (`Timestamp`, `Duration`, `QueryTime`) are outside the
  embedding and are omitted from the structures: no claim depends on them.
- External collaborators (the OS resolver `net.*` calls, the geolocation
  HTTP client, `net.ParseIP`) are parameters of the embedded functions, in
  line with the spec's "single-item resolver" collaborator interface.
- Concurrency: each goroutine of a fan-out sends exactly one value on a
  buffered channel and the collector receives exactly as many values as were
  dispatched, so a run of the collector is a traversal of the dispatched
  items in some arrival order, i.e. a permutation of the dispatch list.
  Theorems therefore quantify over an `arrival` list that is a permutation
  of the input list.  The `K = 10` semaphore of `BulkAnalyzeIPs` is embedded
  separately as a step relation on an abstract scheduler state.
-/

namespace DevTools

/-- `GeoInfo` of ip_service.go (geolocation payload); `float64` latitude and
longitude are modelled as rationals. -/
structure GeoInfo where
  country : String
  countryCode : String
  region : String
  regionCode : String
  city : String
  postal : String
  latitude : Rat
  longitude : Rat
  timezone : String
deriving DecidableEq, Repr

/-- `ISPInfo` of ip_service.go. -/
structure ISPInfo where
  provider : String
  organization : String
  asn : String
  asnName : String
  domain : String
deriving DecidableEq, Repr

/-- `SecInfo` of ip_service.go. -/
structure SecInfo where
  isProxy : Bool
  isVPN : Bool
  isTor : Bool
  isThreat : Bool
  riskScore : Int
  reputation : String
deriving DecidableEq, Repr

/-- `DNSInfo` of ip_service.go (reverse-lookup payload). -/
structure DNSInfo where
  hostname : String
  ptr : List String
deriving DecidableEq, Repr

/-- `IPInfo` of ip_service.go: the per-target success payload.  Optional
pointer fields become `Option`; the `Timestamp` wall-clock field is omitted. -/
structure IPInfo where
  ip : String
  version : String
  type : String
  geolocation : Option GeoInfo
  isp : Option ISPInfo
  security : Option SecInfo
  dns : Option DNSInfo
deriving DecidableEq, Repr

/-- `DNSRecord` of ip_service.go. -/
structure DNSRecord where
  name : String
  type : String
  value : String
  ttl : Int
deriving DecidableEq, Repr

/-- `DNSLookupResult` of ip_service.go (the `Timestamp` and `QueryTime`
wall-clock fields are omitted). -/
structure DNSLookupResult where
  domain : String
  records : List DNSRecord
deriving DecidableEq, Repr

/-- The `Options` sub-struct of `BulkAnalysisRequest`. -/
structure BulkOptions where
  includeGeolocation : Bool
  includeSecurity : Bool
  includeDNS : Bool
  includePerformance : Bool
deriving DecidableEq, Repr

/-- `BulkAnalysisRequest` of ip_service.go: the decoded JSON body of the
batch endpoint. -/
structure BulkAnalysisRequest where
  ips : List String
  options : BulkOptions
deriving DecidableEq, Repr

/-- The `Summary` sub-struct of `BulkAnalysisResult` (the `Duration`
wall-clock field is omitted). -/
structure BulkSummary where
  total : Nat
  successful : Nat
  failed : Nat
deriving DecidableEq, Repr

/-- `BulkAnalysisResult` of ip_service.go (the `Timestamp` wall-clock field
is omitted). -/
structure BulkAnalysisResult where
  results : List IPInfo
  summary : BulkSummary
deriving DecidableEq, Repr

/-- A request-scoped `context.Context` value, as far as the embedded code
inspects it: either the process-wide `context.Background()` or a
caller-supplied request context, distinguished by an abstract identifier.
The embedded code only passes contexts along, so no further structure is
needed. -/
inductive Ctx where
  | background : Ctx
  | caller : Nat → Ctx
deriving DecidableEq, Repr

/-! ## AnalyzeIP (ip_service.go lines 186-218) -/

/-- The predicates of a successfully parsed `net.IP` value that
`getIPVersion`/`getIPType`/`getSecurityInfo` inspect (`To4`, `IsPrivate`,
`IsLoopback`, `IsMulticast`, `IsLinkLocalUnicast`).  `net.ParseIP` itself is
an external collaborator and is passed in as a `String → Option ParsedIP`
parameter (`none` = parse failure = `net.ParseIP` returned `nil`). -/
structure ParsedIP where
  isV4 : Bool
  isPrivate : Bool
  isLoopback : Bool
  isMulticast : Bool
  isLinkLocalUnicast : Bool
deriving DecidableEq, Repr

/-- `getIPVersion` of ip_service.go: "IPv4" when `ip.To4() != nil`. -/
def getIPVersion (ip : ParsedIP) : String :=
  if ip.isV4 then "IPv4" else "IPv6"

/-- `getIPType` of ip_service.go: the private / loopback / multicast /
link-local / public decision chain. -/
def getIPType (ip : ParsedIP) : String :=
  if ip.isPrivate then "private"
  else if ip.isLoopback then "loopback"
  else if ip.isMulticast then "multicast"
  else if ip.isLinkLocalUnicast then "link-local"
  else "public"

/-- `getSecurityInfo` of ip_service.go: static defaults, with the private-IP
heuristic overriding risk score and reputation. -/
def getSecurityInfo (ip : ParsedIP) : SecInfo :=
  let security : SecInfo :=
    { isProxy := false, isVPN := false, isTor := false, isThreat := false
      riskScore := 0, reputation := "neutral" }
  if ip.isPrivate then
    { security with riskScore := 10, reputation := "good" }
  else security

/-- The three fallible sub-lookups `AnalyzeIP` performs after parsing
(`getGeolocation`, `getISPInfo`, `getDNSInfo`).  Each is an external network
collaborator (HTTP call to ipinfo.io, reverse DNS), so each is an abstract
function returning `Except String payload`. -/
structure SubLookups where
  getGeolocation : Ctx → String → Except String GeoInfo
  getISPInfo : Ctx → String → Except String ISPInfo
  getDNSInfo : Ctx → String → Except String DNSInfo

/-- `AnalyzeIP` of ip_service.go lines 186-218: fails exactly when
`net.ParseIP` fails; each sub-lookup's error is silently dropped
(`if x, err := ...; err == nil { info.Field = x }`), leaving the optional
field unset; `Security` is always set from `getSecurityInfo`. -/
def AnalyzeIP (parseIP : String → Option ParsedIP) (subs : SubLookups)
    (ctx : Ctx) (ipStr : String) : Except String IPInfo :=
  match parseIP ipStr with
  | none => .error ("invalid IP address: " ++ ipStr)
  | some ip =>
    .ok
      { ip := ipStr
        version := getIPVersion ip
        type := getIPType ip
        geolocation := (subs.getGeolocation ctx ipStr).toOption
        isp := (subs.getISPInfo ctx ipStr).toOption
        dns := (subs.getDNSInfo ctx ipStr).toOption
        security := some (getSecurityInfo ip) }

/-! ## BulkAnalyzeIPs (ip_service.go lines 725-779)

Each goroutine of the fan-out either succeeds (`err == nil`) and sends the
analyzed `IPInfo`, or fails and sends the minimal error info
`{IP: targetIP, Version: "Unknown", Type: "error"}` together with the
non-nil error.  The collector loop receives exactly `len(request.IPs)`
values, appends each `info` to `Results` and bumps `Successful`/`Failed`
according to whether `err == nil`.  The per-item analyzer is the
`s.AnalyzeIP` call; theorems that quantify over resolver behaviour take it
as an abstract `analyze : Ctx → String → Except String IPInfo` parameter. -/

/-- The value one fan-out goroutine of `BulkAnalyzeIPs` sends on the result
channel for target `targetIP`: the payload plus the `err == nil` flag
(ip_service.go lines 744-761). -/
def analysisOutcome (analyze : Ctx → String → Except String IPInfo)
    (ctx : Ctx) (targetIP : String) : IPInfo × Bool :=
  match analyze ctx targetIP with
  | .ok info => (info, true)
  | .error _ =>
    ({ ip := targetIP, version := "Unknown", type := "error"
       geolocation := none, isp := none, security := none, dns := none },
     false)

/-- `BulkAnalyzeIPs` of ip_service.go lines 725-779.  `ips` is
`request.IPs` (`Summary.Total` is set to its length before dispatch);
`arrival` is the order in which the collector loop receives the per-item
outcomes from the channel — any permutation of `ips`.  The Go function's
`error` result is always `nil`, hence the unconditional `.ok`. -/
def BulkAnalyzeIPs (analyze : Ctx → String → Except String IPInfo)
    (ctx : Ctx) (ips arrival : List String) : Except String BulkAnalysisResult :=
  let outcomes := arrival.map (analysisOutcome analyze ctx)
  .ok
    { results := outcomes.map Prod.fst
      summary :=
        { total := ips.length
          successful := outcomes.countP (fun o => o.2)
          failed := outcomes.countP (fun o => !o.2) } }

/-! ## BatchAnalyzeIPs (routes package, handler at part_000 lines 130-159)

The handler decodes the JSON body (`none` = malformed body), rejects an
empty IP list and a list of more than 100 entries with 400 client errors,
and only then invokes the aggregator.  The returned `Bool` records whether
control reached the `h.ipService.BulkAnalyzeIPs` call. -/

/-- An HTTP response of the batch handler: a 400 client error, a 500 server
error, or the encoded aggregate. -/
inductive HandlerResp where
  | clientError : String → HandlerResp
  | serverError : String → HandlerResp
  | ok : BulkAnalysisResult → HandlerResp
deriving DecidableEq, Repr

/-- `BatchAnalyzeIPs` of the routes package: body decoding, the two length
checks, then dispatch to `BulkAnalyzeIPs` (the handler model runs the
collector in dispatch order; counts are arrival-order independent, see the
idempotence theorem).  Second component: whether the aggregator was
invoked. -/
def BatchAnalyzeIPs (analyze : Ctx → String → Except String IPInfo)
    (ctx : Ctx) (body : Option BulkAnalysisRequest) : HandlerResp × Bool :=
  match body with
  | none => (.clientError "Invalid request body", false)
  | some request =>
    if request.ips.length = 0 then
      (.clientError "No IPs provided", false)
    else if request.ips.length > 100 then
      (.clientError "Too many IPs (maximum 100)", false)
    else
      match BulkAnalyzeIPs analyze ctx request.ips request.ips with
      | .ok result => (.ok result, true)
      | .error _ => (.serverError "Bulk analysis failed", true)

/-! ## DNS lookups (ip_service.go lines 221-267 and 444-604)

The `net.LookupIP` / `LookupMX` / `LookupNS` / `LookupTXT` / `LookupCNAME` /
`LookupAddr` OS resolver calls are external collaborators, bundled in a
`NetStub`. -/

/-- What the DNS helpers inspect of a `net.IP` returned by `net.LookupIP`:
its string form and whether `To4() != nil`. -/
structure IPAddr where
  value : String
  isIPv4 : Bool
deriving DecidableEq, Repr

/-- A `net.MX` record (`Pref`, `Host`). -/
structure MXRecord where
  pref : Nat
  host : String
deriving DecidableEq, Repr

/-- The OS resolver collaborator: one abstract function per `net.*` lookup
the DNS helpers call. -/
structure NetStub where
  lookupIP : String → Except String (List IPAddr)
  lookupMX : String → Except String (List MXRecord)
  lookupNS : String → Except String (List String)
  lookupTXT : String → Except String (List String)
  lookupCNAME : String → Except String String
  lookupAddr : String → Except String (List String)

/-- `lookupA` of ip_service.go lines 444-463: keeps IPv4 addresses only,
each as an A record with the hard-coded `TTL: 300`. -/
def lookupA (net : NetStub) (domain : String) : Except String (List DNSRecord) :=
  match net.lookupIP domain with
  | .error e => .error e
  | .ok ips =>
    .ok ((ips.filter (fun ip => ip.isIPv4)).map
      (fun ip => { name := domain, type := "A", value := ip.value, ttl := 300 }))

/-- `lookupAAAA` of ip_service.go: keeps non-IPv4 addresses only, `TTL: 300`. -/
def lookupAAAA (net : NetStub) (domain : String) : Except String (List DNSRecord) :=
  match net.lookupIP domain with
  | .error e => .error e
  | .ok ips =>
    .ok ((ips.filter (fun ip => !ip.isIPv4)).map
      (fun ip => { name := domain, type := "AAAA", value := ip.value, ttl := 300 }))

/-- `lookupMX` of ip_service.go: value is `fmt.Sprintf("%d %s", Pref, Host)`,
`TTL: 300`. -/
def lookupMX (net : NetStub) (domain : String) : Except String (List DNSRecord) :=
  match net.lookupMX domain with
  | .error e => .error e
  | .ok mxs =>
    .ok (mxs.map (fun mx =>
      { name := domain, type := "MX", value := toString mx.pref ++ " " ++ mx.host, ttl := 300 }))

/-- `lookupNS` of ip_service.go, `TTL: 300`. -/
def lookupNS (net : NetStub) (domain : String) : Except String (List DNSRecord) :=
  match net.lookupNS domain with
  | .error e => .error e
  | .ok nss =>
    .ok (nss.map (fun ns => { name := domain, type := "NS", value := ns, ttl := 300 }))

/-- `lookupTXT` of ip_service.go, `TTL: 300`. -/
def lookupTXT (net : NetStub) (domain : String) : Except String (List DNSRecord) :=
  match net.lookupTXT domain with
  | .error e => .error e
  | .ok txts =>
    .ok (txts.map (fun txt => { name := domain, type := "TXT", value := txt, ttl := 300 }))

/-- `lookupCNAME` of ip_service.go: a single record, `TTL: 300`. -/
def lookupCNAME (net : NetStub) (domain : String) : Except String (List DNSRecord) :=
  match net.lookupCNAME domain with
  | .error e => .error e
  | .ok cname => .ok [{ name := domain, type := "CNAME", value := cname, ttl := 300 }]

/-- `lookupPTR` of ip_service.go, `TTL: 300`. -/
def lookupPTR (net : NetStub) (domain : String) : Except String (List DNSRecord) :=
  match net.lookupAddr domain with
  | .error e => .error e
  | .ok names =>
    .ok (names.map (fun n => { name := domain, type := "PTR", value := n, ttl := 300 }))

/-- `strings.ToUpper` as applied to record-type tags: character-wise ASCII
uppercasing (the tags contain only ASCII letters, on which Go's Unicode
uppercasing and ASCII uppercasing agree). -/
def upcase (s : String) : String :=
  ⟨s.data.map Char.toUpper⟩

/-- The `switch strings.ToUpper(recordType)` dispatch of `LookupDNS` for the
seven simple record types; `none` = fell through to the `default` branch
(which includes `"ALL"`, handled separately by `LookupDNS`). -/
def dispatchSimple (net : NetStub) (domain : String) :
    String → Option (Except String (List DNSRecord))
  | "A" => some (lookupA net domain)
  | "AAAA" => some (lookupAAAA net domain)
  | "MX" => some (lookupMX net domain)
  | "NS" => some (lookupNS net domain)
  | "TXT" => some (lookupTXT net domain)
  | "CNAME" => some (lookupCNAME net domain)
  | "PTR" => some (lookupPTR net domain)
  | _ => none

/-- `LookupDNS` of ip_service.go lines 221-267 restricted to the non-`"ALL"`
record types: the empty-domain validation, the type dispatch, and the
`"DNS lookup failed: %w"` wrapping of a helper error. -/
def lookupDNSSimple (net : NetStub) (domain recordType : String) :
    Except String DNSLookupResult :=
  if domain = "" then .error "domain cannot be empty"
  else
    match dispatchSimple net domain (upcase recordType) with
    | none => .error ("unsupported record type: " ++ recordType)
    | some (.error e) => .error ("DNS lookup failed: " ++ e)
    | some (.ok recs) => .ok { domain := domain, records := recs }

/-- The fixed record-type set of `lookupAll` (ip_service.go line 580). -/
def dnsAllTypes : List String := ["A", "AAAA", "MX", "NS", "TXT", "CNAME"]

/-- What one `lookupAll` goroutine sends on the result channel for record
type `rType` (ip_service.go lines 585-593): the inner
`s.LookupDNS(context.Background(), domain, rType)` call's records on
success, and the empty slice when that call fails.  The inner record types
all come from `dnsAllTypes`, none of which is `"ALL"`, so the inner call is
`lookupDNSSimple` (see `LookupDNS_eq_simple`). -/
def typeContribution (net : NetStub) (domain rType : String) : List DNSRecord :=
  match lookupDNSSimple net domain rType with
  | .ok res => res.records
  | .error _ => []

/-- The record list `lookupAll` assembles when the collector loop receives
the per-type contributions in channel order `arrival` (ip_service.go lines
597-601). -/
def lookupAllWith (net : NetStub) (domain : String) (arrival : List String) :
    List DNSRecord :=
  (arrival.map (typeContribution net domain)).flatten

/-- `lookupAll` of ip_service.go lines 576-604: fan out over `dnsAllTypes`,
collect, and return with a `nil` error unconditionally. -/
def lookupAll (net : NetStub) (domain : String) : Except String (List DNSRecord) :=
  .ok (lookupAllWith net domain dnsAllTypes)

/-- `LookupDNS` of ip_service.go lines 221-267 in full: the `"ALL"` case
routes through `lookupAll`, every other case through the simple dispatch. -/
def LookupDNS (net : NetStub) (domain recordType : String) :
    Except String DNSLookupResult :=
  if upcase recordType = "ALL" then
    if domain = "" then .error "domain cannot be empty"
    else
      match lookupAll net domain with
      | .ok recs => .ok { domain := domain, records := recs }
      | .error e => .error ("DNS lookup failed: " ++ e)
  else lookupDNSSimple net domain recordType

/-! ## Context propagation traces

`BulkAnalyzeIPs` passes its caller's `ctx` to every per-item `s.AnalyzeIP`
call (ip_service.go line 752).  `LookupDNS` receives a `ctx` but drops it at
the `case "ALL": s.lookupAll(domain)` boundary (line 249): `lookupAll` has
no context parameter, and each of its goroutines calls
`s.LookupDNS(context.Background(), domain, rType)` (line 586).  The traces
below record the `(context, arguments)` of the per-item resolver calls each
fan-out issues. -/

/-- The `(ctx, targetIP)` arguments of the per-item `s.AnalyzeIP` calls the
`BulkAnalyzeIPs` fan-out loop issues. -/
def bulkResolverCalls (ctx : Ctx) (ips : List String) : List (Ctx × String) :=
  ips.map (fun ip => (ctx, ip))

/-- The `(context, domain, rType)` arguments of the per-type `s.LookupDNS`
calls the `lookupAll` fan-out issues: always `context.Background()`,
whatever context the outer `LookupDNS` caller supplied (`lookupAll` never
sees it). -/
def lookupAllResolverCalls (domain : String) : List (Ctx × String × String) :=
  dnsAllTypes.map (fun t => (Ctx.background, domain, t))

/-! ## The K = 10 admission semaphore of BulkAnalyzeIPs

ip_service.go lines 741, 746-747: `semaphore := make(chan struct{}, 10)`;
each goroutine does `semaphore <- struct{}{}` before calling `AnalyzeIP` and
`defer func() { <-semaphore }()`, so the release runs on every exit path,
success or failure.  Embedded as a step relation on an abstract scheduler
state counting the goroutines that have not yet acquired a permit, that
hold a permit (resolver call in flight), and that have released it. -/

/-- The channel capacity of the admission semaphore (`make(chan struct{}, 10)`). -/
def semCapacity : Nat := 10

/-- Scheduler state of one `BulkAnalyzeIPs` invocation: how many fan-out
goroutines are blocked before the semaphore send, hold a permit, and have
completed (released). -/
structure BulkState where
  notStarted : Nat
  inFlight : Nat
  completed : Nat
deriving DecidableEq, Repr

/-- Initial scheduler state: all `n` goroutines dispatched, none admitted. -/
def initialBulkState (n : Nat) : BulkState :=
  { notStarted := n, inFlight := 0, completed := 0 }

/-- One scheduler step: a goroutine acquires a permit (possible only while
fewer than `semCapacity` are held — the buffered-channel send blocks
otherwise), or a goroutine finishes its `AnalyzeIP` call and the deferred
receive releases its permit.  The release step carries the call's success
flag but its effect does not depend on it: the `defer` runs on every path. -/
inductive BulkStep : BulkState → BulkState → Prop where
  | acquire (s : BulkState) (hq : 0 < s.notStarted) (hcap : s.inFlight < semCapacity) :
      BulkStep s { notStarted := s.notStarted - 1, inFlight := s.inFlight + 1,
                   completed := s.completed }
  | release (s : BulkState) (ok : Bool) (hf : 0 < s.inFlight) :
      BulkStep s { notStarted := s.notStarted, inFlight := s.inFlight - 1,
                   completed := s.completed + 1 }

/-- Reachability of a scheduler state in a `BulkAnalyzeIPs` run over `n`
targets. -/
def BulkReachable (n : Nat) (s : BulkState) : Prop :=
  Relation.ReflTransGen BulkStep (initialBulkState n) s

/-- The spec's example stub resolver: fails only on `"not-an-ip"`. -/
def stubFailNotAnIP : Ctx → String → Except String IPInfo := fun _ t =>
  if t = "not-an-ip" then .error ("invalid IP address: " ++ t)
  else
    .ok { ip := t, version := "IPv4", type := "public"
          geolocation := none, isp := none, security := none, dns := none }

/-- A `net.ParseIP` stub used by witnesses: fails only on `"not-an-ip"`,
parses everything else as a public IPv4 address. -/
def sampleParseIP : String → Option ParsedIP := fun s =>
  if s = "not-an-ip" then none
  else
    some { isV4 := true, isPrivate := false, isLoopback := false
           isMulticast := false, isLinkLocalUnicast := false }

/-- Sub-lookups that all fail, used by witnesses. -/
def failingSubs : SubLookups :=
  { getGeolocation := fun _ _ => .error "lookup failed"
    getISPInfo := fun _ _ => .error "lookup failed"
    getDNSInfo := fun _ _ => .error "lookup failed" }

/-- The records one per-type branch of `lookupAll` contributes to the
aggregate: the looked-up list on success, zero records on failure. -/
def okOrEmpty : Except String (List DNSRecord) → List DNSRecord
  | .ok recs => recs
  | .error _ => []

/-- A concrete OS-resolver stub used by witnesses: two addresses (one IPv4,
one IPv6), one MX host, one NS host, failing TXT and CNAME lookups, one PTR
name. -/
def sampleNet : NetStub :=
  { lookupIP := fun _ =>
      .ok [{ value := "93.184.216.34", isIPv4 := true },
           { value := "2606:2800:220:1:248:1893:25c8:1946", isIPv4 := false }]
    lookupMX := fun _ => .ok [{ pref := 10, host := "mail.example.com." }]
    lookupNS := fun _ => .ok ["ns1.example.com."]
    lookupTXT := fun _ => .error "no such host"
    lookupCNAME := fun _ => .error "no such host"
    lookupAddr := fun _ => .ok ["example.com."] }

/-! ## Helper lemmas -/

theorem countP_add_countP_not {α : Type} (p : α → Bool) (l : List α) :
    l.countP p + l.countP (fun a => !p a) = l.length := by
  induction l with
  | nil => simp
  | cons a t ih => by_cases h : p a <;> simp [List.countP_cons, h] <;> omega

theorem countP_map_eq {α β : Type} (g : α → β) (q : β → Bool) (l : List α) :
    (l.map g).countP q = l.countP (fun a => q (g a)) := by
  rw [List.countP_map]; rfl

/-- `BulkAnalyzeIPs` unfolded to its (always-`ok`) result record. -/
theorem BulkAnalyzeIPs_eq (analyze : Ctx → String → Except String IPInfo)
    (ctx : Ctx) (ips arrival : List String) :
    BulkAnalyzeIPs analyze ctx ips arrival =
      .ok
        { results := (arrival.map (analysisOutcome analyze ctx)).map Prod.fst
          summary :=
            { total := ips.length
              successful :=
                (arrival.map (analysisOutcome analyze ctx)).countP (fun o => o.2)
              failed :=
                (arrival.map (analysisOutcome analyze ctx)).countP (fun o => !o.2) } } :=
  rfl

/-- The outcome a fan-out goroutine reports for a failing target. -/
theorem analysisOutcome_error (analyze : Ctx → String → Except String IPInfo)
    (ctx : Ctx) (t e : String) (h : analyze ctx t = .error e) :
    analysisOutcome analyze ctx t =
      ({ ip := t, version := "Unknown", type := "error"
         geolocation := none, isp := none, security := none, dns := none }, false) := by
  simp [analysisOutcome, h]

/-! ## Claim theorems -/

/-- C1: for every input list of targets of size `N` (`1 ≤ N ≤ 100`) accepted
by the bulk aggregator, `BulkAnalyzeIPs` returns an aggregate whose
`Results` collection contains exactly `N` item outcomes and whose summary
satisfies `Successful + Failed = Total = N`, for every arrival order of the
per-item outcomes; no target is dropped even when its analysis fails. -/
theorem bulk_summary_invariant (analyze : Ctx → String → Except String IPInfo)
    (ctx : Ctx) (ips arrival : List String) (hperm : arrival.Perm ips)
    (_hlo : 1 ≤ ips.length) (_hhi : ips.length ≤ 100) :
    ∃ res, BulkAnalyzeIPs analyze ctx ips arrival = .ok res ∧
      res.results.length = ips.length ∧
      res.summary.total = ips.length ∧
      res.summary.successful + res.summary.failed = ips.length := by
  refine ⟨_, BulkAnalyzeIPs_eq analyze ctx ips arrival, ?_, rfl, ?_⟩
  · simp [hperm.length_eq]
  · have h := countP_add_countP_not (fun o : IPInfo × Bool => o.2)
      (arrival.map (analysisOutcome analyze ctx))
    simpa [hperm.length_eq] using h

/-- C1 witness. -/
theorem bulk_summary_invariant_witness :
    ∃ res, BulkAnalyzeIPs (fun _ _ => .error "down") Ctx.background
        ["1.1.1.1"] ["1.1.1.1"] = .ok res ∧
      res.results.length = 1 ∧
      res.summary.total = 1 ∧
      res.summary.successful + res.summary.failed = 1 :=
  bulk_summary_invariant (fun _ _ => .error "down") Ctx.background
    ["1.1.1.1"] ["1.1.1.1"] (List.Perm.refl _) (by decide) (by decide)

/-- C2: a per-item resolution failure is recorded as a per-item failure
marker carrying the target's identity and never makes `BulkAnalyzeIPs`
return a top-level error; when every resolution fails the call still
returns `ok` with `Successful = 0` and `Total = N`. -/
theorem bulk_failure_isolation (analyze : Ctx → String → Except String IPInfo)
    (ctx : Ctx) (ips arrival : List String) (hperm : arrival.Perm ips) :
    ∃ res, BulkAnalyzeIPs analyze ctx ips arrival = .ok res ∧
      (∀ t ∈ ips, (∃ e, analyze ctx t = .error e) →
        ∃ info ∈ res.results,
          info.ip = t ∧ info.type = "error" ∧ info.version = "Unknown") ∧
      ((∀ t ∈ ips, ∃ e, analyze ctx t = .error e) →
        res.summary.successful = 0 ∧ res.summary.total = ips.length) := by
  refine ⟨_, BulkAnalyzeIPs_eq analyze ctx ips arrival, ?_, ?_⟩
  · rintro t ht ⟨e, he⟩
    refine ⟨(analysisOutcome analyze ctx t).1, ?_, ?_⟩
    · exact List.mem_map_of_mem _
        (List.mem_map_of_mem _ (hperm.mem_iff.mpr ht))
    · rw [analysisOutcome_error analyze ctx t e he]
      exact ⟨rfl, rfl, rfl⟩
  · intro hall
    refine ⟨?_, rfl⟩
    rw [List.countP_eq_zero]
    rintro o ho
    obtain ⟨t, ht, rfl⟩ := List.mem_map.mp ho
    obtain ⟨e, he⟩ := hall t (hperm.mem_iff.mp ht)
    rw [analysisOutcome_error analyze ctx t e he]
    simp

/-- C2 witness. -/
theorem bulk_failure_isolation_witness :
    ∃ res, BulkAnalyzeIPs (fun _ _ => .error "boom") (Ctx.caller 7)
        ["10.0.0.1", "zzz"] ["10.0.0.1", "zzz"] = .ok res ∧
      (∀ t ∈ ["10.0.0.1", "zzz"],
        (∃ e, (fun (_ : Ctx) (_ : String) =>
            (.error "boom" : Except String IPInfo)) (Ctx.caller 7) t = .error e) →
        ∃ info ∈ res.results,
          info.ip = t ∧ info.type = "error" ∧ info.version = "Unknown") ∧
      ((∀ t ∈ ["10.0.0.1", "zzz"],
        ∃ e, (fun (_ : Ctx) (_ : String) =>
            (.error "boom" : Except String IPInfo)) (Ctx.caller 7) t = .error e) →
        res.summary.successful = 0 ∧ res.summary.total = 2) :=
  bulk_failure_isolation (fun _ _ => .error "boom") (Ctx.caller 7)
    ["10.0.0.1", "zzz"] ["10.0.0.1", "zzz"] (List.Perm.refl _)

/-- C7: targets `["1.1.1.1", "not-an-ip", "8.8.8.8"]` with a resolver that
fails only on `"not-an-ip"` yield `total = 3`, `successful = 2`,
`failed = 1`, and a failure slot keyed to `"not-an-ip"`, whatever the
arrival order of the per-item outcomes. -/
theorem bulk_example_counts (arrival : List String)
    (hperm : arrival.Perm ["1.1.1.1", "not-an-ip", "8.8.8.8"]) :
    ∃ res, BulkAnalyzeIPs stubFailNotAnIP (Ctx.caller 0)
        ["1.1.1.1", "not-an-ip", "8.8.8.8"] arrival = .ok res ∧
      res.summary.total = 3 ∧
      res.summary.successful = 2 ∧
      res.summary.failed = 1 ∧
      ∃ info ∈ res.results, info.ip = "not-an-ip" ∧ info.type = "error" := by
  refine ⟨_, BulkAnalyzeIPs_eq stubFailNotAnIP (Ctx.caller 0) _ arrival, rfl, ?_, ?_, ?_⟩
  · show (arrival.map (analysisOutcome stubFailNotAnIP (Ctx.caller 0))).countP
        (fun o => o.2) = 2
    rw [countP_map_eq, hperm.countP_eq]; decide
  · show (arrival.map (analysisOutcome stubFailNotAnIP (Ctx.caller 0))).countP
        (fun o => !o.2) = 1
    rw [countP_map_eq, hperm.countP_eq]; decide
  · refine ⟨(analysisOutcome stubFailNotAnIP (Ctx.caller 0) "not-an-ip").1,
      List.mem_map_of_mem _ (List.mem_map_of_mem _ (hperm.mem_iff.mpr (by decide))), ?_⟩
    rw [analysisOutcome_error stubFailNotAnIP (Ctx.caller 0) "not-an-ip"
      ("invalid IP address: " ++ "not-an-ip") rfl]
    exact ⟨rfl, rfl⟩

/-- C7 witness. -/
theorem bulk_example_counts_witness :
    ∃ res, BulkAnalyzeIPs stubFailNotAnIP (Ctx.caller 0)
        ["1.1.1.1", "not-an-ip", "8.8.8.8"]
        ["1.1.1.1", "not-an-ip", "8.8.8.8"] = .ok res ∧
      res.summary.total = 3 ∧
      res.summary.successful = 2 ∧
      res.summary.failed = 1 ∧
      ∃ info ∈ res.results, info.ip = "not-an-ip" ∧ info.type = "error" :=
  bulk_example_counts ["1.1.1.1", "not-an-ip", "8.8.8.8"] (List.Perm.refl _)

/-- C8: two runs of the aggregator on the same input list with the same
(deterministic) per-item resolver produce identical `Successful` and
`Failed` counts, whatever the arrival orders of the two runs. -/
theorem bulk_counts_deterministic (analyze : Ctx → String → Except String IPInfo)
    (ctx : Ctx) (ips arrival₁ arrival₂ : List String)
    (h₁ : arrival₁.Perm ips) (h₂ : arrival₂.Perm ips) :
    ∃ res₁ res₂,
      BulkAnalyzeIPs analyze ctx ips arrival₁ = .ok res₁ ∧
      BulkAnalyzeIPs analyze ctx ips arrival₂ = .ok res₂ ∧
      res₁.summary.successful = res₂.summary.successful ∧
      res₁.summary.failed = res₂.summary.failed := by
  refine ⟨_, _, BulkAnalyzeIPs_eq analyze ctx ips arrival₁,
    BulkAnalyzeIPs_eq analyze ctx ips arrival₂, ?_, ?_⟩
  · show (arrival₁.map (analysisOutcome analyze ctx)).countP (fun o => o.2)
        = (arrival₂.map (analysisOutcome analyze ctx)).countP (fun o => o.2)
    rw [countP_map_eq, countP_map_eq, (h₁.trans h₂.symm).countP_eq]
  · show (arrival₁.map (analysisOutcome analyze ctx)).countP (fun o => !o.2)
        = (arrival₂.map (analysisOutcome analyze ctx)).countP (fun o => !o.2)
    rw [countP_map_eq, countP_map_eq, (h₁.trans h₂.symm).countP_eq]

/-- C8 witness: the two runs differ in arrival order. -/
theorem bulk_counts_deterministic_witness :
    ∃ res₁ res₂,
      BulkAnalyzeIPs stubFailNotAnIP (Ctx.caller 2)
        ["1.1.1.1", "not-an-ip"] ["1.1.1.1", "not-an-ip"] = .ok res₁ ∧
      BulkAnalyzeIPs stubFailNotAnIP (Ctx.caller 2)
        ["1.1.1.1", "not-an-ip"] ["not-an-ip", "1.1.1.1"] = .ok res₂ ∧
      res₁.summary.successful = res₂.summary.successful ∧
      res₁.summary.failed = res₂.summary.failed :=
  bulk_counts_deterministic stubFailNotAnIP (Ctx.caller 2)
    ["1.1.1.1", "not-an-ip"] ["1.1.1.1", "not-an-ip"] ["not-an-ip", "1.1.1.1"]
    (List.Perm.refl _) (by decide)

/-- C3: the batch endpoint rejects an empty IP list and a list of more than
100 entries with a client error, without invoking the aggregator, and
accepts a list of length exactly 100 (the aggregator is then invoked). -/
theorem batch_boundary_validation (analyze : Ctx → String → Except String IPInfo)
    (ctx : Ctx) :
    (∀ req : BulkAnalysisRequest, req.ips.length = 0 →
      BatchAnalyzeIPs analyze ctx (some req) =
        (.clientError "No IPs provided", false)) ∧
    (∀ req : BulkAnalysisRequest, req.ips.length > 100 →
      BatchAnalyzeIPs analyze ctx (some req) =
        (.clientError "Too many IPs (maximum 100)", false)) ∧
    (∀ req : BulkAnalysisRequest, req.ips.length = 100 →
      ∃ res, BatchAnalyzeIPs analyze ctx (some req) = (.ok res, true)) := by
  refine ⟨?_, ?_, ?_⟩
  · intro req h
    simp [BatchAnalyzeIPs, h]
  · intro req h
    have h0 : ¬(req.ips.length = 0) := by omega
    simp [BatchAnalyzeIPs, h0, h]
  · intro req h
    have h0 : ¬(req.ips.length = 0) := by omega
    have h1 : ¬(req.ips.length > 100) := by omega
    refine ⟨{ results := (req.ips.map (analysisOutcome analyze ctx)).map Prod.fst
              summary :=
                { total := req.ips.length
                  successful :=
                    (req.ips.map (analysisOutcome analyze ctx)).countP (fun o => o.2)
                  failed :=
                    (req.ips.map (analysisOutcome analyze ctx)).countP (fun o => !o.2) } },
      ?_⟩
    simp only [BatchAnalyzeIPs, h0, h1, if_false, BulkAnalyzeIPs_eq, ite_false]

/-- C3 witness: length 0, length 101, and length 100 bodies. -/
theorem batch_boundary_validation_witness :
    (BatchAnalyzeIPs (fun _ _ => .error "down") Ctx.background
        (some ⟨[], ⟨false, false, false, false⟩⟩) =
      (.clientError "No IPs provided", false)) ∧
    (BatchAnalyzeIPs (fun _ _ => .error "down") Ctx.background
        (some ⟨List.replicate 101 "1.1.1.1", ⟨false, false, false, false⟩⟩) =
      (.clientError "Too many IPs (maximum 100)", false)) ∧
    ∃ res, BatchAnalyzeIPs (fun _ _ => .error "down") Ctx.background
        (some ⟨List.replicate 100 "1.1.1.1", ⟨false, false, false, false⟩⟩) =
      (.ok res, true) :=
  ⟨(batch_boundary_validation (fun _ _ => .error "down") Ctx.background).1 _ rfl,
   (batch_boundary_validation (fun _ _ => .error "down") Ctx.background).2.1 _
     (by simp),
   (batch_boundary_validation (fun _ _ => .error "down") Ctx.background).2.2 _
     (by simp)⟩

/-- C4: in every reachable scheduler state of a `BulkAnalyzeIPs` run over
`n` targets, at most `semCapacity = 10` per-item resolutions hold a permit
simultaneously; goroutines are conserved (none dropped), and once all `n`
items have completed every permit has been released — no permit leaks,
whether the individual calls succeeded or failed. -/
theorem semaphore_bound (n : Nat) (s : BulkState) (h : BulkReachable n s) :
    s.inFlight ≤ semCapacity ∧
    s.notStarted + s.inFlight + s.completed = n ∧
    (s.completed = n → s.inFlight = 0 ∧ s.notStarted = 0) := by
  have core : s.inFlight ≤ 10 ∧ s.notStarted + s.inFlight + s.completed = n := by
    induction h with
    | refl => exact ⟨by dsimp only [initialBulkState]; omega,
        by dsimp only [initialBulkState]; omega⟩
    | tail hpre step ih =>
      obtain ⟨h1, h2⟩ := ih
      cases step with
      | acquire hq hcap =>
        have hcap2 : _ < 10 := hcap
        exact ⟨by dsimp only; omega, by dsimp only; omega⟩
      | release ok hf =>
        exact ⟨by dsimp only; omega, by dsimp only; omega⟩
  obtain ⟨h1, h2⟩ := core
  exact ⟨h1, h2, fun hc => by omega⟩

/-- C4 witness: the state after one acquire and one release in a run over
two targets. -/
theorem semaphore_bound_witness :
    (⟨1, 0, 1⟩ : BulkState).inFlight ≤ semCapacity ∧
    (⟨1, 0, 1⟩ : BulkState).notStarted + (⟨1, 0, 1⟩ : BulkState).inFlight +
      (⟨1, 0, 1⟩ : BulkState).completed = 2 ∧
    ((⟨1, 0, 1⟩ : BulkState).completed = 2 →
      (⟨1, 0, 1⟩ : BulkState).inFlight = 0 ∧ (⟨1, 0, 1⟩ : BulkState).notStarted = 0) :=
  semaphore_bound 2 ⟨1, 0, 1⟩
    (Relation.ReflTransGen.tail
      (Relation.ReflTransGen.tail Relation.ReflTransGen.refl
        (BulkStep.acquire (initialBulkState 2) (by decide) (by decide)))
      (BulkStep.release ⟨1, 1, 0⟩ true (by decide)))

/-- On a non-empty domain, a per-type branch of `lookupAll` contributes the
dispatched helper's records on success and `[]` on failure. -/
theorem typeContribution_okOrEmpty (net : NetStub) (domain : String)
    (hd : domain ≠ "") (t : String) (lk : Except String (List DNSRecord))
    (hdisp : dispatchSimple net domain (upcase t) = some lk) :
    typeContribution net domain t = okOrEmpty lk := by
  unfold typeContribution lookupDNSSimple
  rw [if_neg hd, hdisp]
  cases lk with
  | error e => rfl
  | ok recs => rfl

/-- C5: `lookupAll` returns, with a `nil` error unconditionally, the
flattened concatenation of the per-type record lists for the fixed set
{A, AAAA, MX, NS, TXT, CNAME}, where a record type whose lookup fails
contributes zero records; collecting the per-type contributions in any
arrival order yields a permutation of that concatenation. -/
theorem lookupAll_flattened_union (net : NetStub) (domain : String)
    (arrival : List String) (hd : domain ≠ "")
    (hperm : arrival.Perm dnsAllTypes) :
    ∃ recs, lookupAll net domain = .ok recs ∧
      recs = okOrEmpty (lookupA net domain) ++ okOrEmpty (lookupAAAA net domain) ++
        okOrEmpty (lookupMX net domain) ++ okOrEmpty (lookupNS net domain) ++
        okOrEmpty (lookupTXT net domain) ++ okOrEmpty (lookupCNAME net domain) ∧
      (lookupAllWith net domain arrival).Perm recs := by
  have hA := typeContribution_okOrEmpty net domain hd "A" (lookupA net domain) rfl
  have hAAAA := typeContribution_okOrEmpty net domain hd "AAAA" (lookupAAAA net domain) rfl
  have hMX := typeContribution_okOrEmpty net domain hd "MX" (lookupMX net domain) rfl
  have hNS := typeContribution_okOrEmpty net domain hd "NS" (lookupNS net domain) rfl
  have hTXT := typeContribution_okOrEmpty net domain hd "TXT" (lookupTXT net domain) rfl
  have hCNAME := typeContribution_okOrEmpty net domain hd "CNAME" (lookupCNAME net domain) rfl
  refine ⟨lookupAllWith net domain dnsAllTypes, rfl, ?_, ?_⟩
  · show (dnsAllTypes.map (typeContribution net domain)).flatten = _
    simp only [dnsAllTypes, List.map_cons, List.map_nil, List.flatten_cons,
      List.flatten_nil]
    rw [hA, hAAAA, hMX, hNS, hTXT, hCNAME]
    simp [List.append_assoc]
  · exact (hperm.map (typeContribution net domain)).flatten

/-- C5 witness: the per-type contributions of `sampleNet` on
"example.com", collected in dispatch order. -/
theorem lookupAll_flattened_union_witness :
    ∃ recs, lookupAll sampleNet "example.com" = .ok recs ∧
      recs = okOrEmpty (lookupA sampleNet "example.com") ++
        okOrEmpty (lookupAAAA sampleNet "example.com") ++
        okOrEmpty (lookupMX sampleNet "example.com") ++
        okOrEmpty (lookupNS sampleNet "example.com") ++
        okOrEmpty (lookupTXT sampleNet "example.com") ++
        okOrEmpty (lookupCNAME sampleNet "example.com") ∧
      (lookupAllWith sampleNet "example.com" dnsAllTypes).Perm recs :=
  lookupAll_flattened_union sampleNet "example.com" dnsAllTypes (by decide)
    (List.Perm.refl _)

/-- C6 counterexample: with the caller-supplied context `Ctx.caller 0`, the
"all DNS record types" fan-out does not pass the caller's context to its
per-item calls — each per-type `LookupDNS` call carries
`context.Background()` (ip_service.go line 586), so the claim fails at this
concrete input. -/
theorem lookupAll_ctx_not_propagated :
    ¬ (∀ call ∈ lookupAllResolverCalls "example.com", call.1 = Ctx.caller 0) := by
  decide

/-- C6 amended: the caller-supplied context is the context passed to every
per-item resolver call of the bulk-IP fan-out; the per-type calls of the
"all DNS record types" fan-out instead always carry the fresh background
context, whatever context the caller supplied. -/
theorem resolver_ctx_propagation :
    (∀ (ctx : Ctx) (ips : List String),
      ∀ call ∈ bulkResolverCalls ctx ips, call.1 = ctx) ∧
    (∀ domain : String,
      ∀ call ∈ lookupAllResolverCalls domain, call.1 = Ctx.background) := by
  constructor
  · intro ctx ips call hc
    obtain ⟨ip, -, rfl⟩ := List.mem_map.mp hc
    rfl
  · intro domain call hc
    obtain ⟨t, -, rfl⟩ := List.mem_map.mp hc
    rfl

/-- C6 amended witness. -/
theorem resolver_ctx_propagation_witness :
    ((Ctx.caller 5, "8.8.8.8").1 = Ctx.caller 5) ∧
    ((Ctx.background, "example.com", "MX").1 = Ctx.background) :=
  ⟨resolver_ctx_propagation.1 (Ctx.caller 5) ["8.8.8.8"]
      (Ctx.caller 5, "8.8.8.8") (by decide),
   resolver_ctx_propagation.2 "example.com"
      (Ctx.background, "example.com", "MX") (by decide)⟩

/-- C9: `AnalyzeIP` returns an error exactly when `net.ParseIP` fails on its
input; on every parseable IP it returns a success result, with a failing
geolocation / ISP / reverse-DNS sub-lookup leaving the corresponding
optional field unset instead of raising an error; consequently the bulk
summary's `Failed` counts exactly the unparseable IP strings of the input. -/
theorem AnalyzeIP_error_iff_unparseable (parseIP : String → Option ParsedIP)
    (subs : SubLookups) (ctx : Ctx) (ips arrival : List String)
    (hperm : arrival.Perm ips) :
    (∀ s, (AnalyzeIP parseIP subs ctx s).isOk = (parseIP s).isSome) ∧
    (∀ s ip, parseIP s = some ip →
      ∃ info, AnalyzeIP parseIP subs ctx s = .ok info ∧ info.ip = s ∧
        ((∃ e, subs.getGeolocation ctx s = .error e) → info.geolocation = none) ∧
        ((∃ e, subs.getISPInfo ctx s = .error e) → info.isp = none) ∧
        ((∃ e, subs.getDNSInfo ctx s = .error e) → info.dns = none)) ∧
    (∃ res, BulkAnalyzeIPs (AnalyzeIP parseIP subs) ctx ips arrival = .ok res ∧
      res.summary.failed = ips.countP (fun t => (parseIP t).isNone)) := by
  refine ⟨?_, ?_, ?_⟩
  · intro s
    cases hp : parseIP s <;> simp [AnalyzeIP, hp, Except.isOk, Except.toBool]
  · intro s ip hp
    refine ⟨{ ip := s, version := getIPVersion ip, type := getIPType ip
              geolocation := (subs.getGeolocation ctx s).toOption
              isp := (subs.getISPInfo ctx s).toOption
              dns := (subs.getDNSInfo ctx s).toOption
              security := some (getSecurityInfo ip) },
      by simp [AnalyzeIP, hp], rfl, ?_, ?_, ?_⟩
    · rintro ⟨e, he⟩
      simp [he, Except.toOption]
    · rintro ⟨e, he⟩
      simp [he, Except.toOption]
    · rintro ⟨e, he⟩
      simp [he, Except.toOption]
  · refine ⟨_, BulkAnalyzeIPs_eq (AnalyzeIP parseIP subs) ctx ips arrival, ?_⟩
    show (arrival.map (analysisOutcome (AnalyzeIP parseIP subs) ctx)).countP
        (fun o => !o.2) = ips.countP (fun t => (parseIP t).isNone)
    rw [countP_map_eq, ← hperm.countP_eq (fun t => (parseIP t).isNone)]
    apply List.countP_congr
    intro t _
    cases hp : parseIP t <;> simp [analysisOutcome, AnalyzeIP, hp]

/-- C9 witness: `sampleParseIP` with all sub-lookups failing on the input
`["1.1.1.1", "not-an-ip"]`. -/
theorem AnalyzeIP_error_iff_unparseable_witness :
    (∀ s, (AnalyzeIP sampleParseIP failingSubs (Ctx.caller 9) s).isOk
        = (sampleParseIP s).isSome) ∧
    (∀ s ip, sampleParseIP s = some ip →
      ∃ info, AnalyzeIP sampleParseIP failingSubs (Ctx.caller 9) s = .ok info ∧
        info.ip = s ∧
        ((∃ e, failingSubs.getGeolocation (Ctx.caller 9) s = .error e) →
          info.geolocation = none) ∧
        ((∃ e, failingSubs.getISPInfo (Ctx.caller 9) s = .error e) →
          info.isp = none) ∧
        ((∃ e, failingSubs.getDNSInfo (Ctx.caller 9) s = .error e) →
          info.dns = none)) ∧
    (∃ res, BulkAnalyzeIPs (AnalyzeIP sampleParseIP failingSubs) (Ctx.caller 9)
        ["1.1.1.1", "not-an-ip"] ["1.1.1.1", "not-an-ip"] = .ok res ∧
      res.summary.failed =
        (["1.1.1.1", "not-an-ip"] : List String).countP
          (fun t => (sampleParseIP t).isNone)) :=
  AnalyzeIP_error_iff_unparseable sampleParseIP failingSubs (Ctx.caller 9)
    ["1.1.1.1", "not-an-ip"] ["1.1.1.1", "not-an-ip"] (List.Perm.refl _)

/-- Every A record built by `lookupA` carries the hard-coded `TTL: 300`. -/
theorem lookupA_ttl (net : NetStub) (domain : String) (recs : List DNSRecord)
    (h : lookupA net domain = .ok recs) : ∀ r ∈ recs, r.ttl = 300 := by
  cases hip : net.lookupIP domain with
  | error e => simp [lookupA, hip] at h
  | ok ips =>
    simp only [lookupA, hip, Except.ok.injEq] at h
    subst h
    intro r hr
    obtain ⟨ip, -, rfl⟩ := List.mem_map.mp hr
    rfl

/-- Every AAAA record built by `lookupAAAA` carries `TTL: 300`. -/
theorem lookupAAAA_ttl (net : NetStub) (domain : String) (recs : List DNSRecord)
    (h : lookupAAAA net domain = .ok recs) : ∀ r ∈ recs, r.ttl = 300 := by
  cases hip : net.lookupIP domain with
  | error e => simp [lookupAAAA, hip] at h
  | ok ips =>
    simp only [lookupAAAA, hip, Except.ok.injEq] at h
    subst h
    intro r hr
    obtain ⟨ip, -, rfl⟩ := List.mem_map.mp hr
    rfl

/-- Every MX record built by `lookupMX` carries `TTL: 300`. -/
theorem lookupMX_ttl (net : NetStub) (domain : String) (recs : List DNSRecord)
    (h : lookupMX net domain = .ok recs) : ∀ r ∈ recs, r.ttl = 300 := by
  cases hmx : net.lookupMX domain with
  | error e => simp [lookupMX, hmx] at h
  | ok mxs =>
    simp only [lookupMX, hmx, Except.ok.injEq] at h
    subst h
    intro r hr
    obtain ⟨mx, -, rfl⟩ := List.mem_map.mp hr
    rfl

/-- Every NS record built by `lookupNS` carries `TTL: 300`. -/
theorem lookupNS_ttl (net : NetStub) (domain : String) (recs : List DNSRecord)
    (h : lookupNS net domain = .ok recs) : ∀ r ∈ recs, r.ttl = 300 := by
  cases hns : net.lookupNS domain with
  | error e => simp [lookupNS, hns] at h
  | ok nss =>
    simp only [lookupNS, hns, Except.ok.injEq] at h
    subst h
    intro r hr
    obtain ⟨ns, -, rfl⟩ := List.mem_map.mp hr
    rfl

/-- Every TXT record built by `lookupTXT` carries `TTL: 300`. -/
theorem lookupTXT_ttl (net : NetStub) (domain : String) (recs : List DNSRecord)
    (h : lookupTXT net domain = .ok recs) : ∀ r ∈ recs, r.ttl = 300 := by
  cases htxt : net.lookupTXT domain with
  | error e => simp [lookupTXT, htxt] at h
  | ok txts =>
    simp only [lookupTXT, htxt, Except.ok.injEq] at h
    subst h
    intro r hr
    obtain ⟨txt, -, rfl⟩ := List.mem_map.mp hr
    rfl

/-- The CNAME record built by `lookupCNAME` carries `TTL: 300`. -/
theorem lookupCNAME_ttl (net : NetStub) (domain : String) (recs : List DNSRecord)
    (h : lookupCNAME net domain = .ok recs) : ∀ r ∈ recs, r.ttl = 300 := by
  cases hc : net.lookupCNAME domain with
  | error e => simp [lookupCNAME, hc] at h
  | ok cname =>
    simp only [lookupCNAME, hc, Except.ok.injEq] at h
    subst h
    intro r hr
    simp only [List.mem_singleton] at hr
    subst hr
    rfl

/-- Every PTR record built by `lookupPTR` carries `TTL: 300`. -/
theorem lookupPTR_ttl (net : NetStub) (domain : String) (recs : List DNSRecord)
    (h : lookupPTR net domain = .ok recs) : ∀ r ∈ recs, r.ttl = 300 := by
  cases ha : net.lookupAddr domain with
  | error e => simp [lookupPTR, ha] at h
  | ok names =>
    simp only [lookupPTR, ha, Except.ok.injEq] at h
    subst h
    intro r hr
    obtain ⟨n, -, rfl⟩ := List.mem_map.mp hr
    rfl

/-- Every record produced by any branch of the simple-type dispatch carries
`TTL: 300`. -/
theorem dispatchSimple_ttl (net : NetStub) (domain u : String)
    (recs : List DNSRecord) (h : dispatchSimple net domain u = some (.ok recs)) :
    ∀ r ∈ recs, r.ttl = 300 := by
  unfold dispatchSimple at h
  split at h
  · exact lookupA_ttl net domain recs (Option.some.inj h)
  · exact lookupAAAA_ttl net domain recs (Option.some.inj h)
  · exact lookupMX_ttl net domain recs (Option.some.inj h)
  · exact lookupNS_ttl net domain recs (Option.some.inj h)
  · exact lookupTXT_ttl net domain recs (Option.some.inj h)
  · exact lookupCNAME_ttl net domain recs (Option.some.inj h)
  · exact lookupPTR_ttl net domain recs (Option.some.inj h)
  · exact absurd h (by simp)

/-- Every record returned by `LookupDNS` on a simple record type carries
`TTL: 300`. -/
theorem lookupDNSSimple_ttl (net : NetStub) (domain rt : String)
    (res : DNSLookupResult) (h : lookupDNSSimple net domain rt = .ok res) :
    ∀ r ∈ res.records, r.ttl = 300 := by
  unfold lookupDNSSimple at h
  split at h
  · exact absurd h (by simp)
  · split at h
    · exact absurd h (by simp)
    · exact absurd h (by simp)
    · next recs heq =>
      have hres : ({ domain := domain, records := recs } : DNSLookupResult) = res :=
        Except.ok.inj h
      subst hres
      exact dispatchSimple_ttl net domain (upcase rt) recs heq

/-- Every record assembled by the `lookupAll` fan-out, in any arrival order,
carries `TTL: 300`. -/
theorem lookupAllWith_ttl (net : NetStub) (domain : String)
    (arrival : List String) : ∀ r ∈ lookupAllWith net domain arrival, r.ttl = 300 := by
  intro r hr
  simp only [lookupAllWith, List.mem_flatten] at hr
  obtain ⟨l, hl, hrl⟩ := hr
  obtain ⟨t, -, rfl⟩ := List.mem_map.mp hl
  unfold typeContribution at hrl
  cases hds : lookupDNSSimple net domain t with
  | ok res =>
    rw [hds] at hrl
    exact lookupDNSSimple_ttl net domain t res hds r hrl
  | error e =>
    rw [hds] at hrl
    simp at hrl

/-- C10: every `DNSRecord` returned by `LookupDNS`, for every domain and
every record type (the seven simple types and "ALL"), carries the
hard-coded `TTL = 300` rather than a value from the DNS response. -/
theorem LookupDNS_ttl_constant (net : NetStub) (domain recordType : String)
    (res : DNSLookupResult) (h : LookupDNS net domain recordType = .ok res) :
    ∀ r ∈ res.records, r.ttl = 300 := by
  unfold LookupDNS at h
  split at h
  · split at h
    · exact absurd h (by simp)
    · split at h
      · next recs heq =>
        have hres : ({ domain := domain, records := recs } : DNSLookupResult) = res :=
          Except.ok.inj h
        subst hres
        have hrecs : lookupAllWith net domain dnsAllTypes = recs := Except.ok.inj heq
        subst hrecs
        exact lookupAllWith_ttl net domain dnsAllTypes
      · exact absurd h (by simp)
  · exact lookupDNSSimple_ttl net domain recordType res h

/-- C10 witness: the record returned by the A lookup of `sampleNet` on
"example.com" carries `TTL = 300`. -/
theorem LookupDNS_ttl_constant_witness :
    ({ name := "example.com", type := "A", value := "93.184.216.34"
       ttl := 300 } : DNSRecord).ttl = 300 :=
  LookupDNS_ttl_constant sampleNet "example.com" "A"
    { domain := "example.com"
      records := [{ name := "example.com", type := "A"
                    value := "93.184.216.34", ttl := 300 }] } rfl
    { name := "example.com", type := "A", value := "93.184.216.34", ttl := 300 }
    (by decide)

end DevTools
